import Mathlib

/-!
Shallow embedding of the RabbitMQ adapter (`mqclient_rabbitmq/rabbitmq.py`):
the resilient operation wrapper `try_call`, the resilient stream wrapper
`try_yield`, the connection lifecycle (`RabbitMQ.__init__`, `connect`,
`close`, `RabbitMQSub.close`), message conversion (`_to_message`), the
operation guards, and the streaming consumer `message_generator`.

Python exceptions are modelled as an explicit error type, Python calls that
may raise as `Except`-valued functions, and the side effects of the retry
loops (attempting the unit of work, closing, sleeping, reconnecting) as an
explicit event trace.  External behavior of the pika client (the broker
protocol library) is a parameter: a unit of work is a function from the
attempt number to its outcome, a consume stream is a function from the pass
number to the items it yields and how it ends.
-/

namespace RabbitMQAdapter

/-- The exceptions that flow through the adapter.  `connClosedByBroker`,
`amqpChannelError` and `amqpConnectionError` are the three pika exception
classes named by the `except` clauses of `try_call` / `try_yield`
(`pika.exceptions.ConnectionClosedByBroker` is caught before the general
connection-error clause; in pika it is a connection error, and both are
transient here).  `rabbitmqConnectionError` is the
`Exception("RabbitMQ connection error")` raised at rabbitmq.py:301/335 when
the retry budget is exhausted.  `runtimeNotConnected` is the
`RuntimeError("queue is not connected")` guard.  `closingFailed` and
`alreadyClosed` are `ClosingFailedExcpetion` (with its message argument) and
`AlreadyClosedExcpetion` from the generic interface.  `downstream e` is an
arbitrary exception (tagged by a number) thrown into the generator by the
downstream consumer, and `otherError e` an arbitrary exception raised by a
unit of work that matches none of the `except` clauses. -/
inductive PyExc where
  | connClosedByBroker (e : Nat)
  | amqpChannelError (e : Nat)
  | amqpConnectionError (e : Nat)
  | rabbitmqConnectionError
  | runtimeNotConnected
  | closingFailed (msg : String)
  | alreadyClosed
  | downstream (e : Nat)
  | otherError (e : Nat)
  deriving DecidableEq, Repr

/-- Side effects of the retry loops, in order: `attempt i` is the i-th
invocation (0-based) of the unit of work at rabbitmq.py:285, `close`,
`sleep` and `connect` are `await queue.close()`, `time.sleep(RETRY_DELAY)`
and `await queue.connect()` at rabbitmq.py:296-298 (and 330-332). -/
inductive Event where
  | attempt (i : Nat)
  | close
  | sleep
  | connect
  deriving DecidableEq, Repr

/-- Classification used by the `except` clauses of `try_call`/`try_yield`:
`ConnectionClosedByBroker` and `AMQPConnectionError` are caught and lead to
the close/sleep/connect recovery; everything else is not recovered. -/
def PyExc.isTransient : PyExc → Bool
  | .connClosedByBroker _ => true
  | .amqpConnectionError _ => true
  | _ => false

/-- A unit of work bound to the current channel (the `func` argument of
`try_call`): invocation number ↦ outcome of that invocation. -/
abbrev UnitOfWork (α : Type) : Type := Nat → Except PyExc α

/-- Modelled from the spec: `TRY_ATTEMPTS` is imported from the external
generic interface library (`mqclient.backend_interface`), which is not part
of this repository.  The spec describes it as a small fixed process-wide
constant bounding attempts per logical operation; the upstream library sets
it to 3. -/
def TRY_ATTEMPTS : Nat := 3

/-- The loop body of `try_call` (rabbitmq.py:278-301), with the remaining
number of loop iterations (`fuel`) and the current attempt index `i` made
explicit.  Each iteration invokes `func`; on success its value is returned;
a caught transient connection error leads to `close`, `sleep`, `connect`
and the next iteration; `AMQPChannelError` is re-raised; an exception
matching no `except` clause propagates.  When the loop ends,
`Exception("RabbitMQ connection error")` is raised (rabbitmq.py:301). -/
def tryCallLoop {α : Type} (func : UnitOfWork α) : Nat → Nat → List Event × Except PyExc α
  | 0, _ => ([], .error .rabbitmqConnectionError)
  | fuel + 1, i =>
    match func i with
    | .ok v => ([.attempt i], .ok v)
    | .error e =>
      if e.isTransient then
        let rest := tryCallLoop func fuel (i + 1)
        (.attempt i :: .close :: .sleep :: .connect :: rest.1, rest.2)
      else
        ([.attempt i], .error e)

/-- Embeds `try_call` (rabbitmq.py:273-301): run the loop for `TRY_ATTEMPTS`
iterations starting at attempt 0, returning the event trace and the
result. -/
def try_call {α : Type} (func : UnitOfWork α) : List Event × Except PyExc α :=
  tryCallLoop func TRY_ATTEMPTS 0

/-- Embeds `AMQP_ADDRESS_PREFIX = "amqp://"` (rabbitmq.py:22). -/
def amqpAddressScheme : String := "amqp://"

/-- Python's `str.startswith`: the argument is an initial segment of the
character sequence of the receiver. -/
def pyStartsWith (s pre : String) : Bool := pre.data.isPrefixOf s.data

/-- The address handling of `RabbitMQ.__init__` (rabbitmq.py:34-36): if the
address does not start with `"amqp://"`, prepend it. -/
def normalizeAddress (address : String) : String :=
  if pyStartsWith address amqpAddressScheme then address
  else amqpAddressScheme ++ address

/-- A pika method frame (`pika.spec.Basic.GetOk` / `Deliver`); only the
delivery tag is read by the adapter. -/
structure Frame where
  delivery_tag : Nat
  deriving DecidableEq, Repr

/-- A message body as handed over by pika: either text or raw bytes
(`body: Optional[Union[str, bytes]]` in `_to_message`). -/
inductive PikaBody where
  | str (s : String)
  | bytes (b : List Nat)
  deriving DecidableEq, Repr

/-- Python's `str.encode()` with the default UTF-8 encoding, as a byte
list. -/
def pyEncode (s : String) : List Nat := s.toUTF8.toList.map (fun b => b.toNat)

/-- The generic interface's `Message(msg_id, data)` envelope: delivery
identifier plus payload bytes. -/
structure Message where
  msg_id : Nat
  data : List Nat
  deriving DecidableEq, Repr

/-- One `(method_frame, properties, body)` delivery tuple from
`basic_get`/`consume`; the properties component is never read by the
adapter and is dropped.  `none` components model Python `None` (a missing
frame is falsy, which is all `_to_message` tests of it). -/
abbrev Delivery : Type := Option Frame × Option PikaBody

/-- Embeds `RabbitMQSub._to_message` (rabbitmq.py:158-169): `None` unless both a
frame and a body are present; a text body is encoded to bytes. -/
def to_message (method_frame : Option Frame) (body : Option PikaBody) : Option Message :=
  match method_frame, body with
  | none, _ => none
  | some _, none => none
  | some f, some (.str s) => some { msg_id := f.delivery_tag, data := pyEncode s }
  | some f, some (.bytes b) => some { msg_id := f.delivery_tag, data := b }

/-- One invocation of the consume-stream factory (the `func` argument of
`try_yield`): the deliveries the produced iterator yields before it stops,
and how it stops — `err = none` when the iterator is exhausted normally,
`err = some e` when iterating it raises `e` after the listed items. -/
structure StreamPass where
  items : List Delivery
  err : Option PyExc
  deriving Repr

/-- Side effects of `try_yield`: `invoke i` is the i-th call of the stream
factory `func()` (rabbitmq.py:318), `yielded d` forwards one delivery to
the caller (rabbitmq.py:319), and `close`/`sleep`/`connect` are the
recovery steps at rabbitmq.py:330-332. -/
inductive StreamEvent where
  | invoke (i : Nat)
  | yielded (d : Delivery)
  | close
  | sleep
  | connect

/-- The loop body of `try_yield` (rabbitmq.py:311-335) run to completion,
with remaining iterations `fuel` and pass index `i` explicit.  Each
iteration re-invokes the factory and forwards every item its iterator
yields; a normal end of the iterator falls through to the
close/sleep/connect recovery exactly like a caught transient connection
error does; `AMQPChannelError` is re-raised and unmatched exceptions
propagate.  When the loop ends, `Exception("RabbitMQ connection error")` is
raised (rabbitmq.py:335), so a completed run always ends in an
exception. -/
def tryYieldLoop (func : Nat → StreamPass) : Nat → Nat → List StreamEvent × PyExc
  | 0, _ => ([], .rabbitmqConnectionError)
  | fuel + 1, i =>
    let p := func i
    let ys := p.items.map StreamEvent.yielded
    match p.err with
    | none =>
      let rest := tryYieldLoop func fuel (i + 1)
      (.invoke i :: ys ++ .close :: .sleep :: .connect :: rest.1, rest.2)
    | some e =>
      if e.isTransient then
        let rest := tryYieldLoop func fuel (i + 1)
        (.invoke i :: ys ++ .close :: .sleep :: .connect :: rest.1, rest.2)
      else
        (.invoke i :: ys, e)

/-- Embeds `try_yield` (rabbitmq.py:304-335): run the loop for `TRY_ATTEMPTS`
passes starting at pass 0.  (Abandonment by the caller — closing the
generator early — is outside this run-to-completion model.) -/
def try_yield (func : Nat → StreamPass) : List StreamEvent × PyExc :=
  tryYieldLoop func TRY_ATTEMPTS 0

/-- The pika `BlockingConnection` as the adapter observes it: only its
`is_closed` flag is read (rabbitmq.py:55). -/
structure PikaConnection where
  is_closed : Bool
  deriving DecidableEq, Repr

/-- The attribute state of a `RabbitMQ` instance (rabbitmq.py:32-39):
normalized address, queue name, and the `connection`/`channel` attributes,
both `None` until `connect()`. -/
structure RabbitMQState where
  address : String
  queue : String
  connection : Option PikaConnection
  channel : Option Unit
  deriving DecidableEq, Repr

/-- Embeds `RabbitMQ.__init__` (rabbitmq.py:32-39): store the (normalized)
address and queue name; no connection or channel yet. -/
def RabbitMQ.init (address queue : String) : RabbitMQState :=
  { address := normalizeAddress address
    queue := queue
    connection := none
    channel := none }

/-- Embeds `RabbitMQ.connect` (rabbitmq.py:41-48): create a connection from the
stored address and a channel from it.  The external pika constructor is
assumed to succeed and hand back an open connection.  (`RabbitMQPub` /
`RabbitMQSub.connect` additionally declare the queue and set
confirm-delivery / QoS on the channel — external calls that change no
adapter attribute.) -/
def RabbitMQ.connect (st : RabbitMQState) : RabbitMQState :=
  { st with connection := some { is_closed := false }, channel := some () }

/-- The two externally visible teardown calls issued by `close`:
`self.connection.close()` (rabbitmq.py:58) and `self.channel.cancel()`
(rabbitmq.py:152). -/
inductive CloseEvent where
  | connectionClose
  | channelCancel
  deriving DecidableEq, Repr

/-- Embeds `RabbitMQ.close` (rabbitmq.py:50-60): `ClosingFailedExcpetion("No
connection to close.")` when no connection exists, `AlreadyClosedExcpetion`
when the connection reports itself closed, otherwise `connection.close()`
is called; if that raises (`closeRaises`, the external outcome), the
failure is re-raised as a bare `ClosingFailedExcpetion`.  After a
successful `connection.close()` the external pika connection reports
`is_closed = True` (the repo's unit tests set this attribute manually when
mocking); the adapter never resets its `connection`/`channel`
attributes. -/
def RabbitMQ.close (st : RabbitMQState) (closeRaises : Bool) :
    List CloseEvent × Except PyExc RabbitMQState :=
  match st.connection with
  | none => ([], .error (.closingFailed "No connection to close."))
  | some c =>
    if c.is_closed then ([], .error .alreadyClosed)
    else if closeRaises then ([.connectionClose], .error (.closingFailed ""))
    else ([.connectionClose], .ok { st with connection := some { is_closed := true } })

/-- Embeds `RabbitMQSub.close` (rabbitmq.py:144-156): first `await super().close()`
(the connection close above); only then the channel is checked
(`ClosingFailedExcpetion("No channel to close.")` if absent) and
`self.channel.cancel()` is called, re-raising a cancel failure
(`cancelRaises`, the external outcome) as a bare
`ClosingFailedExcpetion`. -/
def RabbitMQSub.close (st : RabbitMQState) (closeRaises cancelRaises : Bool) :
    List CloseEvent × Except PyExc RabbitMQState :=
  let sup := RabbitMQ.close st closeRaises
  match sup.2 with
  | .error e => (sup.1, .error e)
  | .ok st2 =>
    match st2.channel with
    | none => (sup.1, .error (.closingFailed "No channel to close."))
    | some _ =>
      if cancelRaises then (sup.1 ++ [.channelCancel], .error (.closingFailed ""))
      else (sup.1 ++ [.channelCancel], .ok st2)

/-- Embeds `RabbitMQPub.send_message` (rabbitmq.py:93-116): `RuntimeError("queue
is not connected")` unless `self.channel` is set, otherwise the bound
`basic_publish` unit of work goes through `try_call`. -/
def RabbitMQPub.send_message (st : RabbitMQState) (basic_publish : UnitOfWork Unit) :
    List Event × Except PyExc Unit :=
  match st.channel with
  | none => ([], .error .runtimeNotConnected)
  | some _ => try_call basic_publish

/-- Embeds `RabbitMQSub.get_message` (rabbitmq.py:171-192): the same channel
guard, then `basic_get` through `try_call`, and the returned delivery tuple
through `_to_message` (a `None` result is returned as-is). -/
def RabbitMQSub.get_message (st : RabbitMQState) (basic_get : UnitOfWork Delivery) :
    List Event × Except PyExc (Option Message) :=
  match st.channel with
  | none => ([], .error .runtimeNotConnected)
  | some _ =>
    let r := try_call basic_get
    (r.1, r.2.map (fun d => to_message d.1 d.2))

/-- Embeds `RabbitMQSub.ack_message` (rabbitmq.py:194-205): channel guard, then
`basic_ack(msg.msg_id)` through `try_call`. -/
def RabbitMQSub.ack_message (st : RabbitMQState) (basic_ack : UnitOfWork Unit) :
    List Event × Except PyExc Unit :=
  match st.channel with
  | none => ([], .error .runtimeNotConnected)
  | some _ => try_call basic_ack

/-- Embeds `RabbitMQSub.reject_message` (rabbitmq.py:207-218): channel guard, then
`basic_nack(msg.msg_id)` through `try_call`. -/
def RabbitMQSub.reject_message (st : RabbitMQState) (basic_nack : UnitOfWork Unit) :
    List Event × Except PyExc Unit :=
  match st.channel with
  | none => ([], .error .runtimeNotConnected)
  | some _ => try_call basic_nack

/-- The downstream consumer's response at a `yield` point of
`message_generator`: request the next item (`__anext__`), or throw an
exception (tagged by a number) into the generator (`athrow`). -/
inductive Reaction where
  | next
  | throwErr (e : Nat)
  deriving DecidableEq, Repr

/-- One `yield` of `message_generator`: the value offered to the consumer
and the consumer's reaction to it. -/
abbrev YieldRec : Type := Option Message × Reaction

/-- How the inner per-item loop of `message_generator` leaves the current
pass: `broke` for the `break` on a delivery converting to no message
(rabbitmq.py:244-246), `raisedDownstream e` for a consumer error
propagating out of the generator, `itemsDone` when all items of the pass
were consumed and control returns to `try_yield`. -/
inductive InnerEnd where
  | broke
  | raisedDownstream (e : Nat)
  | itemsDone
  deriving DecidableEq, Repr

/-- How a completed run of `message_generator` ends: a normal return
(`StopAsyncIteration`) or an exception propagating out. -/
inductive MGEnd where
  | normal
  | raised (e : PyExc)
  deriving DecidableEq, Repr

/-- The per-item body of `message_generator`'s `async for` loop
(rabbitmq.py:240-265) over the remaining items of the current pass, with
`j` the index of the next `yield` (the consumer's reactions are indexed by
yield).  Each delivery goes through `_to_message`; no message means
`break`.  Otherwise the message is yielded; on a thrown-in consumer error
the generator re-raises it when `propagate_error` is true, else it yields
`None` from inside the handler (a throw at that second yield is caught by
nothing and propagates). -/
def mgItems (propagate : Bool) (reacts : Nat → Reaction) :
    List Delivery → Nat → List YieldRec × InnerEnd
  | [], _ => ([], .itemsDone)
  | d :: rest, j =>
    match to_message d.1 d.2 with
    | none => ([], .broke)
    | some m =>
      match reacts j with
      | .next =>
        let r := mgItems propagate reacts rest (j + 1)
        ((some m, .next) :: r.1, r.2)
      | .throwErr e =>
        if propagate then ([(some m, .throwErr e)], .raisedDownstream e)
        else
          match reacts (j + 1) with
          | .next =>
            let r := mgItems propagate reacts rest (j + 2)
            ((some m, .throwErr e) :: (none, .next) :: r.1, r.2)
          | .throwErr e2 =>
            ([(some m, .throwErr e), (none, .throwErr e2)], .raisedDownstream e2)

/-- Embeds `message_generator`'s `async for` over `try_yield` (rabbitmq.py:240-265
composed with 311-335), run to completion: pass `i` of the stream factory
supplies its items to the inner loop; a `break` ends the generator
normally, a propagated consumer error ends it with that error; when the
pass's items are exhausted, the pass's own end decides as in `try_yield` —
normal end or transient error leads to recovery and the next pass, a
channel error or unmatched exception propagates, and an exhausted budget
raises `Exception("RabbitMQ connection error")`.  (The recovery's
close/sleep/connect side effects are recorded by `tryYieldLoop`; here the
yield protocol with the consumer is what is tracked.) -/
def mgRun (propagate : Bool) (reacts : Nat → Reaction) (passes : Nat → StreamPass) :
    Nat → Nat → Nat → List YieldRec × MGEnd
  | 0, _, _ => ([], .raised .rabbitmqConnectionError)
  | fuel + 1, i, j =>
    let p := passes i
    let inner := mgItems propagate reacts p.items j
    match inner.2 with
    | .broke => (inner.1, .normal)
    | .raisedDownstream e => (inner.1, .raised (.downstream e))
    | .itemsDone =>
      match p.err with
      | none =>
        let rest := mgRun propagate reacts passes fuel (i + 1) (j + inner.1.length)
        (inner.1 ++ rest.1, rest.2)
      | some e =>
        if e.isTransient then
          let rest := mgRun propagate reacts passes fuel (i + 1) (j + inner.1.length)
          (inner.1 ++ rest.1, rest.2)
        else (inner.1, .raised e)

/-- Embeds `RabbitMQSub.message_generator` (rabbitmq.py:220-270): the channel
guard (`RuntimeError` before any yield when not connected), then the
composite loop above with the full `TRY_ATTEMPTS` budget. -/
def RabbitMQSub.message_generator (st : RabbitMQState) (propagate : Bool)
    (passes : Nat → StreamPass) (reacts : Nat → Reaction) : List YieldRec × MGEnd :=
  match st.channel with
  | none => ([], .raised .runtimeNotConnected)
  | some _ => mgRun propagate reacts passes TRY_ATTEMPTS 0 0

/-- The sequence the driving consumer observes as stream content: the
values of the yields it answered with `next` (an item it threw on is the
failed item, not an observed one — its replacement, the `None` sentinel, is
observed when `propagate_error` is false). -/
def observedSeq (ys : List YieldRec) : List (Option Message) :=
  (ys.filter (fun y => match y.2 with | Reaction.next => true | _ => false)).map Prod.fst

/-- The event trace `try_call` leaves behind when every attempt fails with
a recovered error, starting at attempt `i` with `fuel` attempts left: each
attempt is followed by the full close/sleep/connect recovery. -/
def exhaustTrace : Nat → Nat → List Event
  | 0, _ => []
  | fuel + 1, i => .attempt i :: .close :: .sleep :: .connect :: exhaustTrace fuel (i + 1)

/-- The event trace `try_yield` leaves behind when every pass of the
stream runs to a recovered end: each pass is invoked, its items are
forwarded, and the close/sleep/connect recovery follows. -/
def streamExhaustTrace (passes : Nat → StreamPass) : Nat → Nat → List StreamEvent
  | 0, _ => []
  | fuel + 1, i =>
    .invoke i :: ((passes i).items.map StreamEvent.yielded ++
      .close :: .sleep :: .connect :: streamExhaustTrace passes fuel (i + 1))

instance {ε α : Type} [DecidableEq ε] [DecidableEq α] : DecidableEq (Except ε α) := fun x y =>
  match x, y with
  | .ok a, .ok b => if h : a = b then .isTrue (by simp [h]) else .isFalse (by simp [h])
  | .ok _, .error _ => .isFalse (by simp)
  | .error _, .ok _ => .isFalse (by simp)
  | .error a, .error b => if h : a = b then .isTrue (by simp [h]) else .isFalse (by simp [h])

/-! ## Lemmas about the retry loop -/

theorem tryCallLoop_ok_after {α : Type} (func : UnitOfWork α) (v : α) :
    ∀ (n fuel i : Nat), n < fuel →
      (∀ k, k < n → ∃ e, func (i + k) = .error e ∧ e.isTransient = true) →
      func (i + n) = .ok v →
      (tryCallLoop func fuel i).2 = .ok v := by
  intro n
  induction n with
  | zero =>
    intro fuel i hfuel _ hok
    match fuel, hfuel with
    | fuel + 1, _ =>
      rw [Nat.add_zero] at hok
      simp only [tryCallLoop, hok]
  | succ n ih =>
    intro fuel i hfuel hfail hok
    match fuel, hfuel with
    | fuel + 1, hfuel =>
      obtain ⟨e, he, ht⟩ := hfail 0 (Nat.succ_pos n)
      rw [Nat.add_zero] at he
      simp only [tryCallLoop, he, ht, if_true]
      apply ih fuel (i + 1) (Nat.lt_of_succ_lt_succ hfuel)
      · intro k hk
        have h2 := hfail (k + 1) (Nat.succ_lt_succ hk)
        rwa [show i + (k + 1) = i + 1 + k by omega] at h2
      · rwa [show i + 1 + n = i + (n + 1) by omega]

theorem tryCallLoop_exhausts {α : Type} (func : UnitOfWork α) :
    ∀ (fuel i : Nat),
      (∀ k, k < fuel → ∃ e, func (i + k) = .error e ∧ e.isTransient = true) →
      tryCallLoop func fuel i = (exhaustTrace fuel i, .error .rabbitmqConnectionError) := by
  intro fuel
  induction fuel with
  | zero => intro i _; rfl
  | succ fuel ih =>
    intro i hfail
    obtain ⟨e, he, ht⟩ := hfail 0 (Nat.succ_pos fuel)
    rw [Nat.add_zero] at he
    simp only [tryCallLoop, he, ht, if_true, exhaustTrace]
    rw [ih (i + 1) (fun k hk => by
      have h2 := hfail (k + 1) (Nat.succ_lt_succ hk)
      rwa [show i + (k + 1) = i + 1 + k by omega] at h2)]

/-! ## Claims about the resilient operation wrapper -/

/-- C1 (counterexample): a unit of work with N = TRY_ATTEMPTS leading
transient connection failures (so N ≤ TRY_ATTEMPTS) whose next attempt
would succeed with 42; `try_call` does not return 42 — the budget is
already exhausted after the N leading failures. -/
theorem try_call_budget_boundary_counterexample :
    ((fun i => if i < TRY_ATTEMPTS then Except.error (PyExc.amqpConnectionError 0)
       else Except.ok 42) : UnitOfWork Nat) TRY_ATTEMPTS = Except.ok 42 ∧
    (∀ k, k < TRY_ATTEMPTS →
      ((fun i => if i < TRY_ATTEMPTS then Except.error (PyExc.amqpConnectionError 0)
         else Except.ok 42) : UnitOfWork Nat) k = Except.error (PyExc.amqpConnectionError 0)) ∧
    (try_call ((fun i => if i < TRY_ATTEMPTS then Except.error (PyExc.amqpConnectionError 0)
       else Except.ok 42) : UnitOfWork Nat)).2 ≠ Except.ok 42 :=
  ⟨by decide, by decide, by decide⟩

/-- C1 (amended): for every unit of work and every number N of leading
transient connection failures with N strictly below the budget
(N < TRY_ATTEMPTS), if attempt N+1 (0-based attempt N) succeeds with value
v, then a single `try_call` returns v and no transient failure surfaces to
the caller. -/
theorem try_call_returns_success_within_budget {α : Type} (func : UnitOfWork α)
    (n : Nat) (v : α) (hn : n < TRY_ATTEMPTS)
    (hfail : ∀ k, k < n → ∃ e, func k = .error e ∧ e.isTransient = true)
    (hok : func n = .ok v) :
    (try_call func).2 = .ok v := by
  apply tryCallLoop_ok_after func v n TRY_ATTEMPTS 0 hn
  · intro k hk
    simpa using hfail k hk
  · simpa using hok

/-- Witness for C1's amended theorem: two transient failures, then success
with 42 on attempt 3 of 3. -/
theorem try_call_returns_success_within_budget_witness :
    2 < TRY_ATTEMPTS ∧
    (try_call ((fun i => if i < 2 then Except.error (PyExc.amqpConnectionError 0)
       else Except.ok 42) : UnitOfWork Nat)).2 = Except.ok 42 :=
  ⟨by decide,
    try_call_returns_success_within_budget _ 2 42 (by decide)
      (fun k hk => ⟨.amqpConnectionError 0, by simp [hk], rfl⟩) (by decide)⟩

/-- C2 (confirmed): a unit of work that fails with a transient connection
failure on every one of the TRY_ATTEMPTS attempts makes `try_call` raise
the single budget-exhausted `Exception("RabbitMQ connection error")`,
distinct from every original failure, and the trace ends with the
close/sleep/connect recovery performed after the final failed attempt. -/
theorem try_call_exhaustion_raises_connection_error {α : Type} (func : UnitOfWork α)
    (hfail : ∀ k, k < TRY_ATTEMPTS → ∃ e, func k = .error e ∧ e.isTransient = true) :
    (try_call func).2 = .error .rabbitmqConnectionError ∧
    (∀ k, k < TRY_ATTEMPTS → func k ≠ .error .rabbitmqConnectionError) ∧
    (try_call func).1 =
      [.attempt 0, .close, .sleep, .connect, .attempt 1, .close, .sleep, .connect,
        .attempt 2, .close, .sleep, .connect] ∧
    (try_call func).1.getLast? = some .connect := by
  have htr : try_call func = (exhaustTrace TRY_ATTEMPTS 0, .error .rabbitmqConnectionError) :=
    tryCallLoop_exhausts func TRY_ATTEMPTS 0 (fun k hk => by simpa using hfail k hk)
  refine ⟨by rw [htr], ?_, by rw [htr]; rfl, by rw [htr]; rfl⟩
  intro k hk hbad
  obtain ⟨e, he, ht⟩ := hfail k hk
  rw [hbad] at he
  cases he
  cases ht

/-- Witness for C2: a unit of work failing with `ConnectionClosedByBroker`
on every attempt. -/
theorem try_call_exhaustion_raises_connection_error_witness :
    (try_call ((fun _ => Except.error (PyExc.connClosedByBroker 5)) : UnitOfWork Nat)).2 =
      .error .rabbitmqConnectionError ∧
    (try_call ((fun _ => Except.error (PyExc.connClosedByBroker 5)) : UnitOfWork Nat)).1.getLast?
      = some .connect := by
  have h := try_call_exhaustion_raises_connection_error
    ((fun _ => Except.error (PyExc.connClosedByBroker 5)) : UnitOfWork Nat)
    (fun k _ => ⟨.connClosedByBroker 5, rfl, rfl⟩)
  exact ⟨h.1, h.2.2.2⟩

/-- C3 (confirmed): a unit of work whose first attempt raises
`AMQPChannelError` makes `try_call` propagate that same error after the
single attempt 1: no further attempt is made and no close or connect is
performed. -/
theorem try_call_channel_error_fatal {α : Type} (func : UnitOfWork α) (e : Nat)
    (h : func 0 = .error (.amqpChannelError e)) :
    try_call func = ([.attempt 0], .error (.amqpChannelError e)) ∧
    Event.close ∉ (try_call func).1 ∧
    Event.connect ∉ (try_call func).1 ∧
    (∀ i, Event.attempt i ∈ (try_call func).1 → i = 0) := by
  have htr : try_call func = ([.attempt 0], .error (.amqpChannelError e)) := by
    show tryCallLoop func 3 0 = _
    simp only [tryCallLoop, h, PyExc.isTransient]
    rfl
  refine ⟨htr, by rw [htr]; simp, by rw [htr]; simp, ?_⟩
  intro i hi
  rw [htr] at hi
  simpa using hi

/-- Witness for C3: a unit of work raising `AMQPChannelError` tagged 7 on
its first attempt. -/
theorem try_call_channel_error_fatal_witness :
    try_call ((fun _ => Except.error (PyExc.amqpChannelError 7)) : UnitOfWork Nat) =
      ([.attempt 0], .error (.amqpChannelError 7)) :=
  (try_call_channel_error_fatal
    ((fun _ => Except.error (PyExc.amqpChannelError 7)) : UnitOfWork Nat) 7 rfl).1

/-! ## Claims about the connection lifecycle -/

/-- C7 (confirmed): `close()` on a never-connected instance fails with
ClosingFailed; a second `close()` after a successful one fails with
AlreadyClosed; and an underlying connection-close failure is converted to
ClosingFailed — every error leaving the close boundary is AlreadyClosed or
ClosingFailed, never a raw protocol exception. -/
theorem close_boundary (address q : String) (b : Bool) :
    (RabbitMQ.close (RabbitMQ.init address q) b).2 =
      .error (.closingFailed "No connection to close.") ∧
    (∀ st st2, st.connection = some { is_closed := false } →
      (RabbitMQ.close st false).2 = .ok st2 →
      (RabbitMQ.close st2 b).2 = .error .alreadyClosed) ∧
    (∀ st, st.connection = some { is_closed := false } →
      (RabbitMQ.close st true).2 = .error (.closingFailed "")) ∧
    (∀ st e, (RabbitMQ.close st b).2 = .error e →
      e = .alreadyClosed ∨ ∃ m, e = .closingFailed m) := by
  refine ⟨by simp [RabbitMQ.close, RabbitMQ.init], ?_, ?_, ?_⟩
  · intro st st2 hc hok
    simp only [RabbitMQ.close, hc] at hok
    simp only [RabbitMQ.close]
    cases hok
    rfl
  · intro st hc
    simp [RabbitMQ.close, hc]
  · intro st e h
    unfold RabbitMQ.close at h
    cases hc : st.connection with
    | none =>
      rw [hc] at h
      simp at h
      exact Or.inr ⟨_, h.symm⟩
    | some c =>
      rw [hc] at h
      cases c with
      | mk closed =>
        cases closed with
        | true => simp at h; exact Or.inl h.symm
        | false =>
          cases b with
          | true => simp at h; exact Or.inr ⟨_, h.symm⟩
          | false => simp at h

/-- Witness for C7: the concrete never-connected instance, and
close-then-close-again on a concretely connected one. -/
theorem close_boundary_witness :
    (RabbitMQ.close (RabbitMQ.init "localhost" "q") false).2 =
      .error (.closingFailed "No connection to close.") ∧
    (RabbitMQ.close
      { address := "amqp://localhost", queue := "q",
        connection := some { is_closed := true }, channel := some () } false).2 =
      .error .alreadyClosed := by
  have h := close_boundary "localhost" "q" false
  refine ⟨h.1, ?_⟩
  exact h.2.1
    { address := "amqp://localhost", queue := "q",
      connection := some { is_closed := false }, channel := some () }
    { address := "amqp://localhost", queue := "q",
      connection := some { is_closed := true }, channel := some () }
    rfl rfl

/-- C6 (counterexample): on a concretely connected subscriber, the
teardown trace of `RabbitMQSub.close` is the connection close FIRST and
the consumer cancel AFTER it — the cancellation does happen after the
connection close, and the first teardown call is not the cancel. -/
theorem sub_close_order_counterexample :
    (RabbitMQSub.close (RabbitMQ.connect (RabbitMQ.init "localhost" "q")) false false).1 =
      [CloseEvent.connectionClose, CloseEvent.channelCancel] ∧
    (RabbitMQSub.close (RabbitMQ.connect (RabbitMQ.init "localhost" "q")) false false).1.head? ≠
      some CloseEvent.channelCancel := by
  constructor <;> decide

/-- C6 (amended): for every connected subscriber, `close()` requires an
existing channel (failing with ClosingFailed otherwise, though that check
runs only after the connection close), any failure raised during the
consumer cancellation is reported as ClosingFailed rather than swallowed,
and the cancellation happens immediately AFTER the connection close, not
before it. -/
theorem sub_close_contract (st : RabbitMQState) (cancelRaises : Bool)
    (hconn : st.connection = some { is_closed := false }) :
    (st.channel = none →
      (RabbitMQSub.close st false cancelRaises).2 =
        .error (.closingFailed "No channel to close.")) ∧
    (st.channel = some () →
      (RabbitMQSub.close st false cancelRaises).1 =
        [CloseEvent.connectionClose, CloseEvent.channelCancel]) ∧
    (st.channel = some () → cancelRaises = true →
      (RabbitMQSub.close st false cancelRaises).2 = .error (.closingFailed "")) := by
  refine ⟨?_, ?_, ?_⟩
  · intro hch
    simp [RabbitMQSub.close, RabbitMQ.close, hconn, hch]
  · intro hch
    cases cancelRaises <;> simp [RabbitMQSub.close, RabbitMQ.close, hconn, hch]
  · intro hch hcr
    subst hcr
    simp [RabbitMQSub.close, RabbitMQ.close, hconn, hch]

/-- Witness for C6's amended theorem: a concretely connected subscriber
whose consumer cancellation raises. -/
theorem sub_close_contract_witness :
    (RabbitMQSub.close (RabbitMQ.connect (RabbitMQ.init "localhost" "q")) false true).1 =
      [CloseEvent.connectionClose, CloseEvent.channelCancel] ∧
    (RabbitMQSub.close (RabbitMQ.connect (RabbitMQ.init "localhost" "q")) false true).2 =
      .error (.closingFailed "") := by
  have h := sub_close_contract (RabbitMQ.connect (RabbitMQ.init "localhost" "q")) true rfl
  exact ⟨h.2.1 rfl, h.2.2 rfl rfl⟩

/-! ## Claims about the operation guards -/

/-- C8 (counterexample): after a successful `close()` the channel
attribute is still assigned, so `send_message` on the closed instance does
not fail with any programming-error condition — with an underlying publish
that succeeds, it proceeds through the wrapper and returns success. -/
theorem op_after_close_counterexample :
    (RabbitMQ.close (RabbitMQ.connect (RabbitMQ.init "localhost" "q")) false).2 =
      Except.ok
        { address := "amqp://localhost", queue := "q",
          connection := some { is_closed := true }, channel := some () } ∧
    (RabbitMQPub.send_message
      { address := "amqp://localhost", queue := "q",
        connection := some { is_closed := true }, channel := some () }
      ((fun _ => Except.ok ()) : UnitOfWork Unit)).2 = Except.ok () := by
  constructor <;> rfl

/-- C8 (amended): invoking `send_message`, `get_message`, `ack_message`,
`reject_message` or `message_generator` before `connect()` (the channel
attribute is still None, as it is right after construction) fails with the
RuntimeError programming-error guard; after a successful `close()` the
channel attribute remains assigned, so the guard does not fire and the
operation proceeds into the resilient wrapper. -/
theorem op_guards (st : RabbitMQState) (uw ua ur : UnitOfWork Unit)
    (ug : UnitOfWork Delivery) (passes : Nat → StreamPass) (reacts : Nat → Reaction)
    (p b : Bool) (address q : String) (h : st.channel = none) :
    (RabbitMQPub.send_message st uw).2 = .error .runtimeNotConnected ∧
    (RabbitMQSub.get_message st ug).2 = .error .runtimeNotConnected ∧
    (RabbitMQSub.ack_message st ua).2 = .error .runtimeNotConnected ∧
    (RabbitMQSub.reject_message st ur).2 = .error .runtimeNotConnected ∧
    (RabbitMQSub.message_generator st p passes reacts).2 = .raised .runtimeNotConnected ∧
    (RabbitMQ.init address q).channel = none ∧
    (∀ st0 st2, (RabbitMQ.close st0 b).2 = .ok st2 → st2.channel = st0.channel) := by
  refine ⟨by simp [RabbitMQPub.send_message, h], by simp [RabbitMQSub.get_message, h],
    by simp [RabbitMQSub.ack_message, h], by simp [RabbitMQSub.reject_message, h],
    by simp [RabbitMQSub.message_generator, h], rfl, ?_⟩
  intro st0 st2 hok
  unfold RabbitMQ.close at hok
  cases hc : st0.connection with
  | none => rw [hc] at hok; simp at hok
  | some c =>
    rw [hc] at hok
    cases c with
    | mk closed =>
      cases closed with
      | true => simp at hok
      | false =>
        cases b with
        | true => simp at hok
        | false =>
          simp at hok
          rw [← hok]

/-- Witness for C8's amended theorem: all five operations on a freshly
constructed (never connected) instance. -/
theorem op_guards_witness :
    (RabbitMQPub.send_message (RabbitMQ.init "localhost" "q")
      ((fun _ => Except.ok ()) : UnitOfWork Unit)).2 = .error .runtimeNotConnected ∧
    (RabbitMQSub.message_generator (RabbitMQ.init "localhost" "q") true
      (fun _ => { items := [], err := none }) (fun _ => Reaction.next)).2 =
      .raised .runtimeNotConnected := by
  have h := op_guards (RabbitMQ.init "localhost" "q")
    ((fun _ => Except.ok ()) : UnitOfWork Unit) (fun _ => Except.ok ()) (fun _ => Except.ok ())
    (fun _ => Except.ok ((none, none) : Delivery))
    (fun _ => { items := [], err := none }) (fun _ => Reaction.next)
    true false "localhost" "q" rfl
  exact ⟨h.1, h.2.2.2.2.1⟩

/-! ## Claims about address normalization -/

theorem isPrefixOf_append_self (p a : List Char) : p.isPrefixOf (p ++ a) = true := by
  induction p with
  | nil => simp [List.isPrefixOf]
  | cons c p ih => simp [List.isPrefixOf, ih]

theorem pyStartsWith_scheme_append (a : String) :
    pyStartsWith (amqpAddressScheme ++ a) amqpAddressScheme = true := by
  unfold pyStartsWith
  rw [String.data_append]
  exact isPrefixOf_append_self _ _

/-- C9 (confirmed): construction against an address lacking the amqp://
scheme prepends it, an already-prefixed address is left unchanged,
normalization is idempotent, and neither `connect` nor a successful
`close` ever touches the stored address — so the scheme is applied exactly
once over any number of connect/close cycles. -/
theorem address_normalization (a q : String) (st : RabbitMQState) (b : Bool) :
    normalizeAddress (normalizeAddress a) = normalizeAddress a ∧
    (pyStartsWith a amqpAddressScheme = false →
      normalizeAddress a = amqpAddressScheme ++ a) ∧
    (pyStartsWith a amqpAddressScheme = true → normalizeAddress a = a) ∧
    (RabbitMQ.init a q).address = normalizeAddress a ∧
    (RabbitMQ.connect st).address = st.address ∧
    (∀ st2, (RabbitMQ.close st b).2 = .ok st2 → st2.address = st.address) := by
  refine ⟨?_, ?_, ?_, rfl, rfl, ?_⟩
  · unfold normalizeAddress
    by_cases h : pyStartsWith a amqpAddressScheme = true
    · simp [h]
    · simp [h, pyStartsWith_scheme_append]
  · intro h
    simp [normalizeAddress, h]
  · intro h
    simp [normalizeAddress, h]
  · intro st2 hok
    unfold RabbitMQ.close at hok
    cases hc : st.connection with
    | none => rw [hc] at hok; simp at hok
    | some c =>
      rw [hc] at hok
      cases c with
      | mk closed =>
        cases closed with
        | true => simp at hok
        | false =>
          cases b with
          | true => simp at hok
          | false =>
            simp at hok
            rw [← hok]

/-- Witness for C9: the address "localhost" gains the scheme once and
renormalization changes nothing; "amqp://host" is left unchanged. -/
theorem address_normalization_witness :
    normalizeAddress "localhost" = "amqp://" ++ "localhost" ∧
    normalizeAddress (normalizeAddress "localhost") = normalizeAddress "localhost" ∧
    normalizeAddress "amqp://host" = "amqp://host" := by
  have h1 := address_normalization "localhost" "q" (RabbitMQ.init "localhost" "q") false
  have h2 := address_normalization "amqp://host" "q" (RabbitMQ.init "localhost" "q") false
  exact ⟨h1.2.1 (by decide), h1.1, h2.2.2.1 (by decide)⟩

/-! ## Claims about the streaming consumer -/

theorem to_message_no_frame (b : Option PikaBody) : to_message none b = none := rfl

/-- C4 (confirmed): with `propagate_error=False`, three deliveries A,B,C
(followed by the inactivity-timeout sentinel delivery that ends the
sequence) where the consumer throws an error into the generator while
processing B give the observed sequence [A, None, C]: a single None
sentinel replaces the failed item, no exception escapes (the run ends
normally), and the item after B is still produced. -/
theorem message_generator_no_propagate (st : RabbitMQState)
    (d1 d2 d3 : Delivery) (m1 m2 m3 : Message) (e : Nat)
    (hch : st.channel = some ())
    (h1 : to_message d1.1 d1.2 = some m1)
    (h2 : to_message d2.1 d2.2 = some m2)
    (h3 : to_message d3.1 d3.2 = some m3) :
    RabbitMQSub.message_generator st false
        (fun _ => { items := [d1, d2, d3, ((none, none) : Delivery)], err := none })
        (fun j => if j = 1 then Reaction.throwErr e else Reaction.next) =
      ([(some m1, .next), (some m2, .throwErr e), (none, .next), (some m3, .next)],
        .normal) ∧
    observedSeq
        [(some m1, .next), (some m2, .throwErr e), (none, .next), (some m3, .next)] =
      [some m1, none, some m3] := by
  constructor
  · simp only [RabbitMQSub.message_generator, hch]
    show mgRun false _ _ 3 0 0 = _
    simp [mgRun, mgItems, h1, h2, h3, to_message_no_frame]
  · simp [observedSeq]

/-- Witness for C4: concrete deliveries with byte bodies tagged 1, 2, 3
and a consumer error tagged 9 on the second item. -/
theorem message_generator_no_propagate_witness :
    RabbitMQSub.message_generator (RabbitMQ.connect (RabbitMQ.init "localhost" "q")) false
        (fun _ => { items :=
            [((some { delivery_tag := 1 }, some (.bytes [65])) : Delivery),
              ((some { delivery_tag := 2 }, some (.bytes [66])) : Delivery),
              ((some { delivery_tag := 3 }, some (.bytes [67])) : Delivery),
              ((none, none) : Delivery)], err := none })
        (fun j => if j = 1 then Reaction.throwErr 9 else Reaction.next) =
      ([(some { msg_id := 1, data := [65] }, .next),
        (some { msg_id := 2, data := [66] }, .throwErr 9),
        (none, .next),
        (some { msg_id := 3, data := [67] }, .next)], .normal) :=
  (message_generator_no_propagate (RabbitMQ.connect (RabbitMQ.init "localhost" "q"))
    (some { delivery_tag := 1 }, some (.bytes [65]))
    (some { delivery_tag := 2 }, some (.bytes [66]))
    (some { delivery_tag := 3 }, some (.bytes [67]))
    { msg_id := 1, data := [65] } { msg_id := 2, data := [66] }
    { msg_id := 3, data := [67] } 9 rfl rfl rfl rfl).1

/-- C5 (confirmed): with `propagate_error=True` (the default), the same
inputs give the observed sequence [A], the consumer error propagates out
of the sequence as the generator's end, and C is never produced (it is not
among the yielded values when distinct from A and B). -/
theorem message_generator_propagate (st : RabbitMQState)
    (d1 d2 d3 : Delivery) (m1 m2 m3 : Message) (e : Nat)
    (hch : st.channel = some ())
    (h1 : to_message d1.1 d1.2 = some m1)
    (h2 : to_message d2.1 d2.2 = some m2)
    (h3 : to_message d3.1 d3.2 = some m3) :
    RabbitMQSub.message_generator st true
        (fun _ => { items := [d1, d2, d3, ((none, none) : Delivery)], err := none })
        (fun j => if j = 1 then Reaction.throwErr e else Reaction.next) =
      ([(some m1, .next), (some m2, .throwErr e)], .raised (.downstream e)) ∧
    observedSeq [(some m1, .next), (some m2, .throwErr e)] = [some m1] ∧
    (m3 ≠ m1 → m3 ≠ m2 →
      some m3 ∉ ([((some m1 : Option Message), Reaction.next),
        (some m2, Reaction.throwErr e)].map Prod.fst)) := by
  refine ⟨?_, by simp [observedSeq], ?_⟩
  · simp only [RabbitMQSub.message_generator, hch]
    show mgRun true _ _ 3 0 0 = _
    simp [mgRun, mgItems, h1, h2, h3, to_message_no_frame]
  · intro hne1 hne2
    simp [hne1, hne2]

/-- Witness for C5: the same concrete deliveries as the C4 witness with
`propagate_error=True`. -/
theorem message_generator_propagate_witness :
    RabbitMQSub.message_generator (RabbitMQ.connect (RabbitMQ.init "localhost" "q")) true
        (fun _ => { items :=
            [((some { delivery_tag := 1 }, some (.bytes [65])) : Delivery),
              ((some { delivery_tag := 2 }, some (.bytes [66])) : Delivery),
              ((some { delivery_tag := 3 }, some (.bytes [67])) : Delivery),
              ((none, none) : Delivery)], err := none })
        (fun j => if j = 1 then Reaction.throwErr 9 else Reaction.next) =
      ([(some { msg_id := 1, data := [65] }, .next),
        (some { msg_id := 2, data := [66] }, .throwErr 9)],
        .raised (.downstream 9)) ∧
    some { msg_id := 3, data := [67] } ∉
      ([((some { msg_id := 1, data := [65] } : Option Message), Reaction.next),
        (some { msg_id := 2, data := [66] }, Reaction.throwErr 9)].map Prod.fst) := by
  have h := message_generator_propagate (RabbitMQ.connect (RabbitMQ.init "localhost" "q"))
    (some { delivery_tag := 1 }, some (.bytes [65]))
    (some { delivery_tag := 2 }, some (.bytes [66]))
    (some { delivery_tag := 3 }, some (.bytes [67]))
    { msg_id := 1, data := [65] } { msg_id := 2, data := [66] }
    { msg_id := 3, data := [67] } 9 rfl rfl rfl rfl
  exact ⟨h.1, h.2.2 (by decide) (by decide)⟩

/-! ## Claims about the resilient stream wrapper -/

theorem tryYieldLoop_exhausts (passes : Nat → StreamPass) :
    ∀ (fuel i : Nat), (∀ k, k < fuel → (passes (i + k)).err = none) →
      tryYieldLoop passes fuel i =
        (streamExhaustTrace passes fuel i, .rabbitmqConnectionError) := by
  intro fuel
  induction fuel with
  | zero => intro i _; rfl
  | succ fuel ih =>
    intro i h
    have h0 := h 0 (Nat.succ_pos fuel)
    rw [Nat.add_zero] at h0
    simp only [tryYieldLoop, h0, streamExhaustTrace]
    rw [ih (i + 1) (fun k hk => by
      have h2 := h (k + 1) (Nat.succ_lt_succ hk)
      rwa [show i + (k + 1) = i + 1 + k by omega] at h2)]
    rfl

/-- C10 (confirmed): when every one of the TRY_ATTEMPTS passes of the
stream factory is exhausted normally, `try_yield` never ends the sequence
on its own after forwarding a pass's items: after each pass it closes,
sleeps, reconnects and re-invokes the factory, every item of every pass is
forwarded, and after the TRY_ATTEMPTS complete passes it raises the same
`Exception("RabbitMQ connection error")` that `try_call` raises for
exhausted retries. -/
theorem try_yield_restarts_after_normal_end (passes : Nat → StreamPass)
    (h : ∀ k, k < TRY_ATTEMPTS → (passes k).err = none) :
    try_yield passes = (streamExhaustTrace passes TRY_ATTEMPTS 0, .rabbitmqConnectionError) ∧
    (try_yield passes).1 =
      .invoke 0 :: ((passes 0).items.map StreamEvent.yielded ++ .close :: .sleep :: .connect ::
      .invoke 1 :: ((passes 1).items.map StreamEvent.yielded ++ .close :: .sleep :: .connect ::
      .invoke 2 :: ((passes 2).items.map StreamEvent.yielded ++
        [.close, .sleep, .connect]))) ∧
    (∀ k, k < TRY_ATTEMPTS → ∀ d ∈ (passes k).items,
      StreamEvent.yielded d ∈ (try_yield passes).1) ∧
    (try_call ((fun _ => Except.error (PyExc.amqpConnectionError 0)) : UnitOfWork Unit)).2 =
      .error .rabbitmqConnectionError := by
  have htr : try_yield passes =
      (streamExhaustTrace passes TRY_ATTEMPTS 0, .rabbitmqConnectionError) :=
    tryYieldLoop_exhausts passes TRY_ATTEMPTS 0 (fun k hk => by simpa using h k hk)
  refine ⟨htr, by rw [htr]; simp [streamExhaustTrace], ?_, by decide⟩
  intro k hk d hd
  have hk3 : k < 3 := hk
  rw [htr]
  interval_cases k <;> simp [streamExhaustTrace, List.mem_append] <;> tauto

/-- Witness for C10: a factory whose every pass yields one delivery and
ends normally; the wrapper forwards it on each of the three passes and
ends by raising the connection error. -/
theorem try_yield_restarts_after_normal_end_witness :
    try_yield (fun _ =>
        { items := [((some { delivery_tag := 1 }, some (.bytes [65])) : Delivery)],
          err := none }) =
      (streamExhaustTrace (fun _ =>
        { items := [((some { delivery_tag := 1 }, some (.bytes [65])) : Delivery)],
          err := none }) TRY_ATTEMPTS 0, .rabbitmqConnectionError) ∧
    StreamEvent.yielded ((some { delivery_tag := 1 }, some (.bytes [65])) : Delivery) ∈
      (try_yield (fun _ =>
        { items := [((some { delivery_tag := 1 }, some (.bytes [65])) : Delivery)],
          err := none })).1 := by
  have h := try_yield_restarts_after_normal_end (fun _ =>
    { items := [((some { delivery_tag := 1 }, some (.bytes [65])) : Delivery)],
      err := none }) (fun _ _ => rfl)
  exact ⟨h.1, h.2.2.1 0 (by decide) _ (by decide)⟩

end RabbitMQAdapter
